import Mathlib

/-!
Verification development for the DrawToEdit client application.

The TypeScript sources are shallowly embedded as executable Lean
definitions:

* `src/services/geminiService.ts` — remote generation client:
  response extraction, artifact detection, the automated cleanup pass,
  prompt synthesis and request-part construction for
  `editImageWithDrawing`.
* `src/src/main.ts` (the inlined `App.svelte` component) — the edit
  orchestrator and session store: `handleGenerate`, `handleEdit`,
  `handleCreateNewSession`, `handleDeleteSession`, `handleResetCurrent`,
  together with the module-level reactive state (`sessions`,
  `activeSessionId`, `promptText`, `isLoading`, `errorMessage`,
  `hasDrawing`).

Outbound service calls, the canvas compositor and `JSON.parse` are
external collaborators; their outcomes are passed to the embedded
functions as explicit arguments (`Except` values), so a single run of a
handler is a pure function of its initial state and of the outcomes the
environment would have produced.  JavaScript string truthiness
(`s || d` selecting `d` exactly when `s` is empty) is modelled by
`jsOr`/`jsOrOpt`, and `String.prototype.trim` by the executable
`jsTrim`.
-/

namespace DrawToEdit

/-- Model of JavaScript `s || d` for strings: the empty string is the
only falsy string, so the fallback is chosen exactly when `s` is empty. -/
def jsOr (s fallback : String) : String :=
  if s.isEmpty then fallback else s

/-- Model of JavaScript `x?.y || d` where the optional chain may be
`undefined`: falls back when the value is absent or empty. -/
def jsOrOpt (x : Option String) (fallback : String) : String :=
  match x with
  | some s => if s.isEmpty then fallback else s
  | none => fallback

/-- Executable model of JavaScript `String.prototype.trim()` (whitespace
stripped from both ends; ASCII whitespace, which covers every string the
application produces). -/
def jsTrim (s : String) : String :=
  String.mk (((s.data.dropWhile Char.isWhitespace).reverse.dropWhile Char.isWhitespace).reverse)

/-- Executable model of JavaScript `String.prototype.toUpperCase()`
(ASCII letters uppercased, which covers the fixed color names it is
applied to). -/
def strToUpper (s : String) : String :=
  String.mk (s.data.map Char.toUpper)

/-- `types.ts` — `GeneratedImage`: url (data URL), raw base64 payload,
MIME type. -/
structure GeneratedImage where
  url : String
  base64 : String
  mimeType : String
deriving Repr, DecidableEq

/-- `geminiService.ts` — `MaskInstruction`: a color name paired with the
instruction text for regions marked in that color. -/
structure MaskInstruction where
  colorName : String
  instruction : String
deriving Repr, DecidableEq

/-- An inline image payload inside a service response part
(`inlineData` with possibly-absent `mimeType`). -/
structure InlineData where
  mimeType : Option String
  data : String
deriving Repr, DecidableEq

/-- One content part of a service response: an optional inline image and
an optional text. -/
structure ResponsePart where
  inlineData : Option InlineData
  text : Option String
deriving Repr, DecidableEq

/-- The `content` wrapper of a response candidate. -/
structure RespContent where
  parts : List ResponsePart
deriving Repr, DecidableEq

/-- One candidate result of a service response. -/
structure Candidate where
  content : RespContent
deriving Repr, DecidableEq

/-- A service response: the candidate list, plus the SDK convenience
accessor `response.text` used by `detectArtifacts`. -/
structure GenResponse where
  candidates : List Candidate
  text : Option String
deriving Repr, DecidableEq

/-- The two failures thrown by `extractImageFromResponse`
(`geminiService.ts` lines 323-342): `Error("No candidates returned from
API")` when the candidate list is empty, and `Error(textPart?.text ||
"No edited image generated")` when the first candidate has no inline
image part. -/
inductive ExtractError where
  | emptyResponse
  | noImage (msg : String)
deriving Repr, DecidableEq

/-- The `.message` of the thrown `Error`, as read by the orchestrator's
catch blocks. -/
def ExtractError.message : ExtractError → String
  | ExtractError.emptyResponse => "No candidates returned from API"
  | ExtractError.noImage msg => msg

/-- Truthiness of `p.text` as used by `parts.find((p) => p.text)`:
present and non-empty. -/
def textTruthy (p : ResponsePart) : Bool :=
  match p.text with
  | some s => !s.isEmpty
  | none => false

/-- `geminiService.ts` lines 323-342, `extractImageFromResponse`:
throws on an empty candidate list; otherwise finds the first part of the
first candidate with a (truthy) `inlineData`, and either builds the
`GeneratedImage` from it (MIME type defaulting to `image/png`) or throws
carrying the first truthy text part's text (defaulting to
"No edited image generated"). -/
def extractImageFromResponse (response : GenResponse) : Except ExtractError GeneratedImage :=
  match response.candidates with
  | [] => Except.error ExtractError.emptyResponse
  | c :: _ =>
    let parts := c.content.parts
    match parts.find? (fun p => p.inlineData.isSome) with
    | some ⟨some d, _⟩ =>
      let mt := jsOrOpt d.mimeType "image/png"
      Except.ok { url := "data:" ++ mt ++ ";base64," ++ d.data, base64 := d.data, mimeType := mt }
    | _ =>
      let textPart := parts.find? textTruthy
      Except.error (ExtractError.noImage (jsOrOpt (textPart.bind ResponsePart.text) "No edited image generated"))

/-- `geminiService.ts` lines 91-142, `detectArtifacts`: the body after
`getAiInstance()` is wrapped in `try/catch` with `catch` returning
`false`.  `callResult` is the outcome of the `generateContent` round
trip (`Except.error` = the call threw; `Except.ok` carries
`response.text`), and `parseArtifactJson` is the outcome of
`JSON.parse` followed by `!!json.hasArtifacts` (`Except.error` = the
parse threw).  `Except.error` in the return type would mean an exception
propagating to the caller; the function never produces one. -/
def detectArtifacts (callResult : Except String (Option String))
    (parseArtifactJson : String → Except String Bool) : Except String Bool :=
  match callResult with
  | Except.error _ => Except.ok false
  | Except.ok none => Except.ok false
  | Except.ok (some t) =>
    if t.isEmpty then Except.ok false
    else
      match parseArtifactJson t with
      | Except.error _ => Except.ok false
      | Except.ok hasArtifacts => Except.ok hasArtifacts

/-- Observable outcome of the automated cleanup pass: the image finally
returned, and how many times detection and cleanup were invoked. -/
structure CleanupPassRun where
  result : GeneratedImage
  detectCalls : Nat
  cleanupCalls : Nat
deriving Repr, DecidableEq

/-- `geminiService.ts` lines 290-313, the tail of
`editImageWithDrawing` after the first-pass image is extracted: run
`detectArtifacts` once; if it reports artifacts, attempt `cleanupImage`
once inside `try/catch`, returning the cleaned image on success and the
first-pass image on failure; otherwise return the first-pass image.
`hasArtifacts` is the detection outcome (total, by `detectArtifacts`'s
contract) and `cleanupOutcome` the outcome of the `cleanupImage` call.
The return type is total: no failure escapes this segment. -/
def artifactCleanupPass (firstPassImage : GeneratedImage) (hasArtifacts : Bool)
    (cleanupOutcome : Except String GeneratedImage) : CleanupPassRun :=
  if hasArtifacts then
    match cleanupOutcome with
    | Except.ok cleanImage => { result := cleanImage, detectCalls := 1, cleanupCalls := 1 }
    | Except.error _ => { result := firstPassImage, detectCalls := 1, cleanupCalls := 1 }
  else
    { result := firstPassImage, detectCalls := 1, cleanupCalls := 0 }

/-- First fragment of the `editImageWithDrawing` prompt template
(`geminiService.ts` lines 215-226), up to the quote that precedes the
interpolated global instruction. -/
def editPromptPart1 : String :=
  "\n    You are an expert AI photo retoucher and inpainting specialist.\n    \n    INPUTS:\n    1. IMAGE 1: The Clean Source Image (use this as the base for your output).\n    2. IMAGE 2: The Annotated Reference Image. This is identical to Image 1 but contains BRIGHT NEON COLORED ANNOTATIONS overlaying specific areas.\n\n    TASK:\n    Modify IMAGE 1 based on the instructions below, using IMAGE 2 ONLY to identify WHERE to edit.\n\n    GLOBAL INSTRUCTION (Applies to the entire image style/scene):\n    \""

/-- Second fragment of the prompt template (lines 226-229), between the
global instruction and the region instruction lines. -/
def editPromptPart2 : String :=
  "\"\n\n    SPECIFIC REGION EDITS (Apply to areas marked in IMAGE 2):\n    "

/-- Final fragment of the prompt template (lines 230-259). -/
def editPromptPart3 : String :=
  "\n\n    CRITICAL INSTRUCTIONS FOR IMAGE PROCESSING:\n    1. **INTERPRETATION**: The bright neon colored lines/circles/scribbles in IMAGE 2 (specifically Cyan #00FFFF, Magenta #FF00FF, Yellow #FFFF00, or Lime/Green #00FF00) are PURELY UI ANNOTATIONS to indicate *where* to edit. They are NOT part of the physical scene and MUST be completely removed.\n    \n    2. **COLOR REMOVAL**: You must completely ERASE and INPAINT over ALL neon colored markings. The final output must contain ZERO traces of:\n       - Bright Cyan (#00FFFF) lines or areas\n       - Bright Magenta (#FF00FF) lines or areas  \n       - Bright Yellow (#FFFF00) lines or areas\n       - Bright Lime/Green (#00FF00) lines or areas\n       These colors are digital UI markers and should NEVER appear in the final photorealistic output.\n    \n    3. **EXECUTION PROCESS**: \n       - Use IMAGE 2 ONLY to identify the target regions (where the neon colors appear)\n       - Apply the user\x27s specific text instructions to those regions using IMAGE 1 as the base\n       - Apply the GLOBAL INSTRUCTION to the overall image mood/style if specified\n       - Inpaint and blend the edited regions seamlessly with IMAGE 1\x27s original lighting, texture, and style\n       - Generate a photorealistic result that looks like a natural photograph\n    \n    4. **OUTPUT REQUIREMENTS**:\n       - The output must be based on IMAGE 1, not IMAGE 2\n       - All neon colored annotations must be completely removed and inpainted\n       - The edited regions must blend naturally with the rest of the image\n       - No digital artifacts, neon colors, or UI markers should remain\n    \n    FINAL CHECKLIST:\n    - Does the output image look like a real, natural photograph?\n    - Have ALL neon colored markers (Cyan, Magenta, Yellow, Green) been completely removed?\n    - Are the requested edits applied correctly to the identified regions?\n    - Does the image maintain photorealistic quality throughout?\n  "

/-- Fallback global sentence interpolated when `globalInstruction` is
empty (`geminiService.ts` line 226). -/
def editGlobalFallback : String :=
  "Keep the overall style and scene consistent, focusing on the specific edits below."

/-- Fallback region line interpolated when no region instructions exist
(line 229). -/
def editRegionFallback : String :=
  "No specific region edits provided."

/-- The line produced for one `MaskInstruction`
(line 212): `[<COLOR_UPPERCASE> ANNOTATION]: <instruction>`. -/
def maskInstructionLine (i : MaskInstruction) : String :=
  "[" ++ strToUpper i.colorName ++ " ANNOTATION]: " ++ i.instruction

/-- `geminiService.ts` lines 211-259: prompt synthesis for
`editImageWithDrawing`.  `instructionText` joins one formatted line per
`MaskInstruction` with newlines; the template interpolates the global
instruction (or its fallback) and `instructionText` (or its fallback). -/
def buildEditPrompt (instructions : List MaskInstruction) (globalInstruction : String) : String :=
  let instructionText := String.intercalate "\n" (instructions.map maskInstructionLine)
  editPromptPart1 ++ jsOr globalInstruction editGlobalFallback
    ++ editPromptPart2 ++ jsOr instructionText editRegionFallback ++ editPromptPart3

/-- One part of an outbound request: either inline data with a declared
MIME type, or a text part. -/
structure RequestPart where
  inlineMimeType : Option String
  inlineData : Option String
  text : Option String
deriving Repr, DecidableEq

/-- `geminiService.ts` lines 261-281: the `parts` array of the
`editImageWithDrawing` request — the source image with its own MIME
type, the composite image declared as `image/jpeg`, and the synthesized
prompt. -/
def buildEditRequestParts (originalImageBase64 originalMimeType compositeImageBase64 prompt : String) :
    List RequestPart :=
  [ { inlineMimeType := some originalMimeType, inlineData := some originalImageBase64, text := none },
    { inlineMimeType := some "image/jpeg", inlineData := some compositeImageBase64, text := none },
    { inlineMimeType := none, inlineData := none, text := some prompt } ]

/-- `types.ts` — `Session`: one independent generate/edit workflow.
`modPrompts` (a JS `Record<string, string>` keyed by marker-color hex)
is modelled as an association list with unique keys.  The `isLoading`
and `error` fields exist on the record but the component never writes
them after creation. -/
structure Session where
  id : String
  image : Option GeneratedImage
  basePrompt : String
  globalPrompt : String
  modPrompts : List (String × String)
  drawingDataUrl : Option String
  isLoading : Bool
  error : Option String
deriving Repr, DecidableEq

/-- `App.svelte` (inlined in `src/src/main.ts`) lines 62-71,
`createSession`: a fresh empty session.  The unique id produced by
`crypto.randomUUID()` is passed in explicitly. -/
def createSession (freshId : String) : Session :=
  { id := freshId, image := none, basePrompt := "", globalPrompt := "", modPrompts := [],
    drawingDataUrl := none, isLoading := false, error := none }

/-- The component's module-level reactive state: the session list, the
active session id, the generation prompt input, and the single global
`isLoading` / `errorMessage` / `hasDrawing` / `drawingState.isDrawing`
flags shared by all sessions. -/
structure AppState where
  sessions : List Session
  activeSessionId : String
  promptText : String
  isLoading : Bool
  errorMessage : Option String
  hasDrawing : Bool
  drawingIsDrawing : Bool
deriving Repr, DecidableEq

/-- `getActiveSession`: the first session whose id equals
`activeSessionId`. -/
def getActiveSession (st : AppState) : Option Session :=
  st.sessions.find? (fun s => s.id == st.activeSessionId)

/-- `updateActiveSession`: map over the session list, replacing the
record whose id equals `activeSessionId` by its update. -/
def updateActiveSession (st : AppState) (f : Session → Session) : AppState :=
  { st with sessions := st.sessions.map (fun s => if s.id == st.activeSessionId then f s else s) }

/-- The validity check of `handleEdit` (line 186): the global prompt
trims non-empty, or some region prompt value trims non-empty. -/
def hasInstructions (session : Session) : Bool :=
  !(jsTrim session.globalPrompt).isEmpty
    || session.modPrompts.any (fun kv => !(jsTrim kv.2).isEmpty)

/-- `MASK_COLORS` (lines 24-29): hex value paired with the color name. -/
def MASK_COLORS : List (String × String) :=
  [("#00FFFF", "Cyan"), ("#FF00FF", "Magenta"), ("#FFFF00", "Yellow"), ("#00FF00", "Lime")]

/-- `handleEdit` lines 206-212: for each mask color in order, include a
`MaskInstruction` when the session's prompt for that color trims
non-empty. -/
def activeInstructions (modPrompts : List (String × String)) : List MaskInstruction :=
  MASK_COLORS.filterMap (fun colorObj =>
    match modPrompts.lookup colorObj.1 with
    | some pt => if (jsTrim pt).isEmpty then none else some { colorName := colorObj.2, instruction := pt }
    | none => none)

/-- The guard under which `handleEdit` composites (lines 198-204):
`hasDrawing && canvasLayer` followed by a truthiness test of
`canvasLayer.getDataUrl()`.  `canvasDataUrl` is `none` when
`canvasLayer` is null, and otherwise carries the `getDataUrl()` result
(the empty string when the canvas element is missing). -/
def overlayPresent (hasDrawing : Bool) (canvasDataUrl : Option String) : Bool :=
  hasDrawing && (match canvasDataUrl with
    | some d => !d.isEmpty
    | none => false)

/-- Outcomes the environment would produce for the external calls one
`handleEdit` run can make: the compositor (`getCompositeImage`), the
edit `generateContent` round trip, artifact detection (total, by
`detectArtifacts`'s contract), and the cleanup call. -/
structure EditOracles where
  compositeResult : Except String String
  editCallResult : Except String GenResponse
  detectOutcome : Bool
  cleanupOutcome : Except String GeneratedImage
deriving Repr

/-- Observable outcome of one `handleEdit` run: the final application
state, the number of remote-service calls issued, the number of
compositor invocations, and the parts of the `editImageWithDrawing`
request when one was issued. -/
structure EditRun where
  state : AppState
  serviceCalls : Nat
  compositorCalls : Nat
  sentParts : Option (List RequestPart)
deriving Repr, DecidableEq

/-- `App.svelte` lines 181-225, `handleEdit`, run to completion with the
external outcomes supplied by `o`:
* return silently when the active session is absent or has no image
  (line 183);
* set the global `errorMessage` and return when no instruction is
  non-blank (lines 186-190) — no service call;
* otherwise set the global `isLoading`, composite only when
  `overlayPresent` (lines 193-205), build the active instruction list
  and invoke `editImageWithDrawing` (whose request parts, first-pass
  extraction and detect/cleanup pass are the embedded `geminiService`
  definitions), on success write the new image into the active session
  and clear its overlay and prompts (line 217), on any thrown failure
  set the global `errorMessage` from `err.message` (lines 220-222), and
  in all cases clear the global `isLoading` (line 223). -/
def handleEdit (st : AppState) (canvasDataUrl : Option String) (o : EditOracles) : EditRun :=
  match getActiveSession st with
  | none => { state := st, serviceCalls := 0, compositorCalls := 0, sentParts := none }
  | some session =>
    match session.image with
    | none => { state := st, serviceCalls := 0, compositorCalls := 0, sentParts := none }
    | some img =>
      if !(hasInstructions session) then
        { state := { st with errorMessage := some "Please provide an instruction." },
          serviceCalls := 0, compositorCalls := 0, sentParts := none }
      else
        let st1 : AppState := { st with isLoading := true, errorMessage := none }
        let compSel : Except String String × Nat :=
          if overlayPresent st.hasDrawing canvasDataUrl then (o.compositeResult, 1)
          else (Except.ok img.base64, 0)
        match compSel.1 with
        | Except.error e =>
          { state := { st1 with errorMessage := some (jsOr e "Something went wrong."), isLoading := false },
            serviceCalls := 0, compositorCalls := compSel.2, sentParts := none }
        | Except.ok compositeBase64 =>
          let instrs := activeInstructions session.modPrompts
          let prompt := buildEditPrompt instrs session.globalPrompt
          let parts := buildEditRequestParts img.base64 img.mimeType compositeBase64 prompt
          match o.editCallResult with
          | Except.error e =>
            { state := { st1 with errorMessage := some (jsOr e "Something went wrong."), isLoading := false },
              serviceCalls := 1, compositorCalls := compSel.2, sentParts := some parts }
          | Except.ok resp =>
            match extractImageFromResponse resp with
            | Except.error ee =>
              { state := { st1 with errorMessage := some (jsOr ee.message "Something went wrong."),
                                    isLoading := false },
                serviceCalls := 1, compositorCalls := compSel.2, sentParts := some parts }
            | Except.ok firstPassImage =>
              let pass := artifactCleanupPass firstPassImage o.detectOutcome o.cleanupOutcome
              let st2 := updateActiveSession st1 (fun s =>
                { s with image := some pass.result, drawingDataUrl := none,
                         modPrompts := [], globalPrompt := "" })
              { state := { st2 with hasDrawing := false, isLoading := false },
                serviceCalls := 1 + pass.detectCalls + pass.cleanupCalls,
                compositorCalls := compSel.2, sentParts := some parts }

/-- Outcome of the synchronous prefix of `handleEdit`, before any
external call is awaited. -/
inductive EditStartOutcome where
  | rejectedNoImage
  | rejectedNoInstructions
  | started
deriving Repr, DecidableEq

/-- `App.svelte` lines 182-192: the synchronous prefix of `handleEdit`.
It consults the active session and the instruction check, and — note —
never consults the global `isLoading` flag; when it proceeds it sets
`isLoading := true` and clears `errorMessage`. -/
def handleEditStart (st : AppState) : AppState × EditStartOutcome :=
  match getActiveSession st with
  | none => (st, EditStartOutcome.rejectedNoImage)
  | some session =>
    match session.image with
    | none => (st, EditStartOutcome.rejectedNoImage)
    | some _ =>
      if hasInstructions session then
        ({ st with isLoading := true, errorMessage := none }, EditStartOutcome.started)
      else
        ({ st with errorMessage := some "Please provide an instruction." },
          EditStartOutcome.rejectedNoInstructions)

/-- `App.svelte` lines 165-179, `handleGenerate`, run to completion with
the `generateImage` outcome supplied: rejected when the prompt is blank
or the global `isLoading` flag is set; on success the image and base
prompt are written into the active session and the prompt input is
cleared; on failure the global `errorMessage` receives `err.message`;
the global `isLoading` is cleared in `finally`. -/
def handleGenerate (st : AppState) (genResult : Except String GeneratedImage) : AppState :=
  if (jsTrim st.promptText).isEmpty || st.isLoading then st
  else
    let st1 : AppState := { st with isLoading := true, errorMessage := none }
    match genResult with
    | Except.ok newImage =>
      let st2 := updateActiveSession st1 (fun s =>
        { s with image := some newImage, basePrompt := st.promptText })
      { st2 with promptText := "", drawingIsDrawing := true, isLoading := false }
    | Except.error e =>
      { st1 with errorMessage := some (jsOr e "Something went wrong."), isLoading := false }

/-- `App.svelte` lines 227-234, `handleCreateNewSession`: append a fresh
session and activate it. -/
def handleCreateNewSession (st : AppState) (freshId : String) : AppState :=
  let newSession := createSession freshId
  { st with sessions := st.sessions ++ [newSession], activeSessionId := newSession.id,
            promptText := "", hasDrawing := false }

/-- `App.svelte` lines 253-268, `handleDeleteSession`: with at most one
session left, replace the list by a single fresh session; otherwise
filter the target id out and, when the active session was deleted,
activate the last remaining session (`sessions[sessions.length - 1]`;
the `getD` default models the spot where JavaScript would throw on an
empty list, unreachable when session ids are distinct). -/
def handleDeleteSession (st : AppState) (targetId : String) (freshId : String) : AppState :=
  if st.sessions.length ≤ 1 then
    let resetSession := createSession freshId
    { st with sessions := [resetSession], activeSessionId := resetSession.id,
              promptText := "", hasDrawing := false }
  else
    let remaining := st.sessions.filter (fun s => s.id != targetId)
    { st with sessions := remaining,
              activeSessionId :=
                if st.activeSessionId == targetId then
                  (remaining.getLast?.map Session.id).getD st.activeSessionId
                else st.activeSessionId }

/-- `App.svelte` lines 283-290, `handleResetCurrent`: replace the active
session by a fresh one in place and activate it. -/
def handleResetCurrent (st : AppState) (freshId : String) : AppState :=
  let fresh := createSession freshId
  { st with sessions := st.sessions.map (fun s => if s.id == st.activeSessionId then fresh else s),
            activeSessionId := fresh.id, promptText := "", hasDrawing := false }

/-! Concrete fixtures used by witnesses and counterexamples. -/

/-- A PNG image as held in a session. -/
def imgPng : GeneratedImage :=
  { url := "data:image/png;base64,AAAA", base64 := "AAAA", mimeType := "image/png" }

/-- The image a successful cleanup pass would return. -/
def imgClean : GeneratedImage :=
  { url := "data:image/png;base64,BBBB", base64 := "BBBB", mimeType := "image/png" }

/-- Oracles for runs whose external calls are never reached or all fail. -/
def oracleUnused : EditOracles :=
  { compositeResult := Except.error "unused", editCallResult := Except.error "unused",
    detectOutcome := false, cleanupOutcome := Except.error "unused" }

/-- App state holding a single fresh session (the state right after
startup): no image, blank prompts. -/
def stFresh : AppState :=
  { sessions := [createSession "s1"], activeSessionId := "s1", promptText := "",
    isLoading := false, errorMessage := none, hasDrawing := false, drawingIsDrawing := false }

/-- Session `A`: has an image and a non-blank global instruction. -/
def sessionA : Session :=
  { id := "A", image := some imgPng, basePrompt := "a bicycle", globalPrompt := "make it darker",
    modPrompts := [], drawingDataUrl := none, isLoading := false, error := none }

/-- Session `B`: has an image; its fields must survive operations on `A`. -/
def sessionB : Session :=
  { id := "B", image := some imgClean, basePrompt := "a house", globalPrompt := "",
    modPrompts := [("#00FFFF", "add a window")], drawingDataUrl := none, isLoading := false,
    error := none }

/-- Two sessions, `A` active, with the global busy flag set by an
outstanding operation. -/
def stBusyA : AppState :=
  { sessions := [sessionA, sessionB], activeSessionId := "A", promptText := "",
    isLoading := true, errorMessage := none, hasDrawing := false, drawingIsDrawing := true }

/-- One session with an image and blank instructions, for the amended
validation witness. -/
def stBlankWithImage : AppState :=
  { sessions := [{ createSession "s1" with image := some imgPng }], activeSessionId := "s1",
    promptText := "", isLoading := false, errorMessage := none, hasDrawing := false,
    drawingIsDrawing := true }

/-- One imageless session with a pending generation prompt, for the
generate-failure counterexample. -/
def stGen : AppState :=
  { sessions := [createSession "s1"], activeSessionId := "s1", promptText := "a cat",
    isLoading := false, errorMessage := none, hasDrawing := false, drawingIsDrawing := false }

/-- Like `stBusyA` but with a drawing present on the canvas. -/
def stDrawA : AppState :=
  { sessions := [sessionA, sessionB], activeSessionId := "A", promptText := "",
    isLoading := false, errorMessage := none, hasDrawing := true, drawingIsDrawing := true }

/-- A response with no candidates. -/
def respEmpty : GenResponse := { candidates := [], text := none }

/-- A candidate carrying only a text explanation. -/
def candTextOnly : Candidate :=
  { content := { parts := [{ inlineData := none, text := some "blocked" }] } }

/-- A response whose only candidate carries only a text explanation. -/
def respTextOnly : GenResponse := { candidates := [candTextOnly], text := none }

/-- A candidate carrying an inline PNG payload. -/
def candWithImage : Candidate :=
  { content := { parts :=
      [{ inlineData := some { mimeType := some "image/png", data := "AAAA" }, text := none }] } }

/-- A response whose only candidate carries an inline PNG payload. -/
def respWithImage : GenResponse := { candidates := [candWithImage], text := none }

/-- Oracles for a run whose compositor and edit call both succeed and
whose detection reports no artifacts. -/
def oracleEditOk : EditOracles :=
  { compositeResult := Except.ok "COMP", editCallResult := Except.ok respWithImage,
    detectOutcome := false, cleanupOutcome := Except.error "unused" }

/-! Claim theorems. -/

/-- C1: for every input image and every failing behaviour of the remote
service — a transport or service failure (the `generateContent` call
threw) or a parsing failure (`JSON.parse` on the response text threw) —
`detectArtifacts` does not raise any error: it returns `false`, so the
caller treats the failure as "no artifacts found". -/
theorem detectArtifacts_swallows_failures
    (callResult : Except String (Option String))
    (parseArtifactJson : String → Except String Bool)
    (h : (∃ e, callResult = Except.error e) ∨
         (∃ t e, callResult = Except.ok (some t) ∧ parseArtifactJson t = Except.error e)) :
    detectArtifacts callResult parseArtifactJson = Except.ok false := by
  rcases h with ⟨e, he⟩ | ⟨t, e, hc, hp⟩
  · subst he; rfl
  · subst hc
    by_cases ht : t.isEmpty
    · simp [detectArtifacts, ht]
    · simp [detectArtifacts, ht, hp]

/-- Witness for C1: a transport failure and a parse failure, each
swallowed into `false`. -/
theorem detectArtifacts_swallows_failures_witness :
    detectArtifacts (Except.error "network failure") (fun _ => Except.ok true) = Except.ok false ∧
    detectArtifacts (Except.ok (some "not json")) (fun _ => Except.error "SyntaxError") = Except.ok false := by
  constructor
  · exact detectArtifacts_swallows_failures _ _ (Or.inl ⟨"network failure", rfl⟩)
  · exact detectArtifacts_swallows_failures _ _ (Or.inr ⟨"not json", "SyntaxError", rfl, rfl⟩)

/-- C2: after the first-pass edited image is produced — if detection
reports no artifacts, cleanup is never invoked and the first-pass image
is returned unchanged; if artifacts are reported and cleanup succeeds,
the cleaned image is returned; if artifacts are reported and cleanup
fails, the first-pass image is returned (the failure is swallowed: the
pass is a total function, so no error reaches the caller); and detection
and cleanup each run at most once. -/
theorem artifactCleanupPass_single_pass (firstPassImage : GeneratedImage)
    (hasArtifacts : Bool) (cleanupOutcome : Except String GeneratedImage) :
    (hasArtifacts = false →
      artifactCleanupPass firstPassImage hasArtifacts cleanupOutcome =
        { result := firstPassImage, detectCalls := 1, cleanupCalls := 0 }) ∧
    (∀ cleanImage, hasArtifacts = true → cleanupOutcome = Except.ok cleanImage →
      (artifactCleanupPass firstPassImage hasArtifacts cleanupOutcome).result = cleanImage) ∧
    (∀ e, hasArtifacts = true → cleanupOutcome = Except.error e →
      (artifactCleanupPass firstPassImage hasArtifacts cleanupOutcome).result = firstPassImage) ∧
    (artifactCleanupPass firstPassImage hasArtifacts cleanupOutcome).detectCalls ≤ 1 ∧
    (artifactCleanupPass firstPassImage hasArtifacts cleanupOutcome).cleanupCalls ≤ 1 := by
  cases hasArtifacts <;> cases cleanupOutcome <;>
    simp [artifactCleanupPass]

/-- Witness for C2: the three outcomes at concrete images, with the
call counters at their claimed values. -/
theorem artifactCleanupPass_single_pass_witness :
    artifactCleanupPass imgPng false (Except.error "unused") =
      { result := imgPng, detectCalls := 1, cleanupCalls := 0 } ∧
    (artifactCleanupPass imgPng true (Except.ok imgClean)).result = imgClean ∧
    (artifactCleanupPass imgPng true (Except.error "cleanup failed")).result = imgPng := by
  refine ⟨?_, ?_, ?_⟩
  · exact (artifactCleanupPass_single_pass imgPng false (Except.error "unused")).1 rfl
  · exact (artifactCleanupPass_single_pass imgPng true (Except.ok imgClean)).2.1 imgClean rfl rfl
  · exact (artifactCleanupPass_single_pass imgPng true (Except.error "cleanup failed")).2.2.1
      "cleanup failed" rfl rfl

/-- C8: the shared extraction routine fails with the empty-response
error when the response has no candidates; fails with the no-image
error — carrying the first truthy text part's text, defaulting to the
fixed message — when the first candidate has no inline image part; and
otherwise returns the `GeneratedImage` built from the first inline
image part (MIME type defaulting to `image/png`). -/
theorem extractImageFromResponse_contract (response : GenResponse) :
    (response.candidates = [] →
      extractImageFromResponse response = Except.error ExtractError.emptyResponse) ∧
    (∀ c rest, response.candidates = c :: rest →
      (c.content.parts.find? (fun p => p.inlineData.isSome) = none →
        extractImageFromResponse response =
          Except.error (ExtractError.noImage
            (jsOrOpt ((c.content.parts.find? textTruthy).bind ResponsePart.text)
              "No edited image generated"))) ∧
      (∀ p d, c.content.parts.find? (fun q => q.inlineData.isSome) = some p →
        p.inlineData = some d →
        extractImageFromResponse response =
          Except.ok { url := "data:" ++ jsOrOpt d.mimeType "image/png" ++ ";base64," ++ d.data,
                      base64 := d.data, mimeType := jsOrOpt d.mimeType "image/png" })) := by
  constructor
  · intro h
    simp [extractImageFromResponse, h]
  · intro c rest h
    constructor
    · intro hnone
      simp [extractImageFromResponse, h, hnone]
    · intro p d hfind hinl
      obtain ⟨pi, pt⟩ := p
      cases hinl
      simp [extractImageFromResponse, h, hfind]

/-- Witness for C8: an empty response, a text-only response, and a
response with an inline image, each at concrete values. -/
theorem extractImageFromResponse_contract_witness :
    extractImageFromResponse respEmpty = Except.error ExtractError.emptyResponse ∧
    extractImageFromResponse respTextOnly = Except.error (ExtractError.noImage "blocked") ∧
    extractImageFromResponse respWithImage =
      Except.ok { url := "data:image/png;base64,AAAA", base64 := "AAAA", mimeType := "image/png" } := by
  refine ⟨?_, ?_, ?_⟩
  · exact (extractImageFromResponse_contract respEmpty).1 rfl
  · exact ((extractImageFromResponse_contract respTextOnly).2 candTextOnly [] rfl).1 (by decide)
  · exact ((extractImageFromResponse_contract respWithImage).2 candWithImage [] rfl).2
      { inlineData := some { mimeType := some "image/png", data := "AAAA" }, text := none }
      { mimeType := some "image/png", data := "AAAA" } (by decide) rfl

/-- C7: prompt synthesis for the edit call is a deterministic function
of its inputs — the prompt is exactly the fixed template with the
global instruction (or the fixed fallback sentence when empty) and one
line per `MaskInstruction` formatted `[<COLOR_UPPERCASE> ANNOTATION]:
<instruction>` (or the fixed fallback line when none exist); and for
`[{colorName := "Cyan", instruction := "make the sky stormy"}]` with an
empty global instruction the prompt contains the line
`[CYAN ANNOTATION]: make the sky stormy` and the fixed fallback global
sentence. -/
theorem editPrompt_synthesis :
    (∀ instructions globalInstruction,
      buildEditPrompt instructions globalInstruction =
        editPromptPart1 ++ jsOr globalInstruction editGlobalFallback ++ editPromptPart2
          ++ jsOr (String.intercalate "\n" (instructions.map maskInstructionLine)) editRegionFallback
          ++ editPromptPart3) ∧
    (∀ i, maskInstructionLine i = "[" ++ strToUpper i.colorName ++ " ANNOTATION]: " ++ i.instruction) ∧
    (∃ a b, buildEditPrompt [{ colorName := "Cyan", instruction := "make the sky stormy" }] "" =
      a ++ ("[CYAN ANNOTATION]: make the sky stormy" ++ b)) ∧
    (∃ a b, buildEditPrompt [{ colorName := "Cyan", instruction := "make the sky stormy" }] "" =
      a ++ (editGlobalFallback ++ b)) := by
  refine ⟨fun instructions globalInstruction => rfl, fun i => rfl, ?_, ?_⟩
  · refine ⟨editPromptPart1 ++ editGlobalFallback ++ editPromptPart2, editPromptPart3, ?_⟩
    have h1 : buildEditPrompt [{ colorName := "Cyan", instruction := "make the sky stormy" }] "" =
        editPromptPart1 ++ editGlobalFallback ++ editPromptPart2
          ++ "[CYAN ANNOTATION]: make the sky stormy" ++ editPromptPart3 := rfl
    rw [h1]
    simp [String.append_assoc]
  · refine ⟨editPromptPart1,
      editPromptPart2 ++ "[CYAN ANNOTATION]: make the sky stormy" ++ editPromptPart3, ?_⟩
    have h1 : buildEditPrompt [{ colorName := "Cyan", instruction := "make the sky stormy" }] "" =
        editPromptPart1 ++ editGlobalFallback ++ editPromptPart2
          ++ "[CYAN ANNOTATION]: make the sky stormy" ++ editPromptPart3 := rfl
    rw [h1]
    simp [String.append_assoc]

/-- Helper: whenever a `handleEdit` run issues the edit request, the
parts sent are exactly `buildEditRequestParts` applied to the active
session's image and some composite payload, and with no overlay the
composite payload is the source payload itself. -/
theorem handleEdit_sentParts_shape (st : AppState) (canvasDataUrl : Option String)
    (o : EditOracles) (ps : List RequestPart)
    (h : (handleEdit st canvasDataUrl o).sentParts = some ps) :
    ∃ session img compositeBase64,
      getActiveSession st = some session ∧ session.image = some img ∧
      (overlayPresent st.hasDrawing canvasDataUrl = false → compositeBase64 = img.base64) ∧
      ps = buildEditRequestParts img.base64 img.mimeType compositeBase64
        (buildEditPrompt (activeInstructions session.modPrompts) session.globalPrompt) := by
  cases hga : getActiveSession st with
  | none => simp [handleEdit, hga] at h
  | some session =>
    cases himg : session.image with
    | none => simp [handleEdit, hga, himg] at h
    | some img =>
      by_cases hins : hasInstructions session = true
      · by_cases hov : overlayPresent st.hasDrawing canvasDataUrl = true
        · cases hcomp : o.compositeResult with
          | error e => simp [handleEdit, hga, himg, hins, hov, hcomp] at h
          | ok comp =>
            refine ⟨session, img, comp, rfl, himg,
              fun hfalse => absurd (hov ▸ hfalse) (by decide), ?_⟩
            cases hcall : o.editCallResult with
            | error e =>
              simp [handleEdit, hga, himg, hins, hov, hcomp, hcall] at h
              exact h.symm
            | ok resp =>
              cases hex : extractImageFromResponse resp with
              | error ee =>
                simp [handleEdit, hga, himg, hins, hov, hcomp, hcall, hex] at h
                exact h.symm
              | ok firstPassImage =>
                simp [handleEdit, hga, himg, hins, hov, hcomp, hcall, hex] at h
                exact h.symm
        · rw [Bool.not_eq_true] at hov
          refine ⟨session, img, img.base64, rfl, himg, fun _ => rfl, ?_⟩
          cases hcall : o.editCallResult with
          | error e =>
            simp [handleEdit, hga, himg, hins, hov, hcall] at h
            exact h.symm
          | ok resp =>
            cases hex : extractImageFromResponse resp with
            | error ee =>
              simp [handleEdit, hga, himg, hins, hov, hcall, hex] at h
              exact h.symm
            | ok firstPassImage =>
              simp [handleEdit, hga, himg, hins, hov, hcall, hex] at h
              exact h.symm
      · rw [Bool.not_eq_true] at hins
        simp [handleEdit, hga, himg, hins] at h

/-- C10: in every edit request the second (composite) image part is
declared with media type `image/jpeg`, while only the first (source)
part carries the source's actual media type; this holds for every
request `handleEdit` sends, and with an empty overlay the composite
part's payload is the unmodified source payload (whose own media type
may differ, e.g. `image/png`) under the `image/jpeg` declaration. -/
theorem composite_part_always_jpeg (b m c p : String) :
    ((buildEditRequestParts b m c p)[0]?).bind RequestPart.inlineMimeType = some m ∧
    ((buildEditRequestParts b m c p)[1]?).bind RequestPart.inlineMimeType = some "image/jpeg" ∧
    (∀ st canvasDataUrl o ps, (handleEdit st canvasDataUrl o).sentParts = some ps →
      (ps[1]?).bind RequestPart.inlineMimeType = some "image/jpeg") ∧
    (∀ st canvasDataUrl o session img ps,
      getActiveSession st = some session → session.image = some img →
      (handleEdit st canvasDataUrl o).sentParts = some ps →
      (ps[0]?).bind RequestPart.inlineMimeType = some img.mimeType ∧
      (overlayPresent st.hasDrawing canvasDataUrl = false →
        (ps[1]?).bind RequestPart.inlineData = some img.base64)) := by
  refine ⟨rfl, rfl, ?_, ?_⟩
  · intro st canvasDataUrl o ps h
    obtain ⟨session, img, comp, _, _, _, hps⟩ := handleEdit_sentParts_shape st canvasDataUrl o ps h
    rw [hps]
    rfl
  · intro st canvasDataUrl o session img ps hga himg h
    obtain ⟨session2, img2, comp, hga2, himg2, hcomp, hps⟩ :=
      handleEdit_sentParts_shape st canvasDataUrl o ps h
    have hs : session2 = session := by rw [hga] at hga2; exact (Option.some_inj.mp hga2.symm)
    subst hs
    have hi : img2 = img := by rw [himg] at himg2; exact (Option.some_inj.mp himg2.symm)
    subst hi
    constructor
    · rw [hps]; rfl
    · intro hov
      rw [hps, hcomp hov]
      rfl

/-- Witness for C10: a full `handleEdit` run on a session holding a PNG
image with no overlay drawn — the request it sends reuses the PNG
payload as the composite but declares it `image/jpeg`, while the source
part keeps `image/png`. -/
theorem composite_part_always_jpeg_witness :
    (((buildEditRequestParts "AAAA" "image/png" "AAAA" "x")[0]?).bind RequestPart.inlineMimeType
        = some "image/png") ∧
    (((handleEdit stBusyA none
        { compositeResult := Except.error "unused", editCallResult := Except.ok respWithImage,
          detectOutcome := false, cleanupOutcome := Except.error "unused" }).sentParts.getD []
      )[1]?).bind RequestPart.inlineMimeType = some "image/jpeg" ∧
    (((handleEdit stBusyA none
        { compositeResult := Except.error "unused", editCallResult := Except.ok respWithImage,
          detectOutcome := false, cleanupOutcome := Except.error "unused" }).sentParts.getD []
      )[1]?).bind RequestPart.inlineData = some imgPng.base64 := by
  have hsent : (handleEdit stBusyA none
      { compositeResult := Except.error "unused", editCallResult := Except.ok respWithImage,
        detectOutcome := false, cleanupOutcome := Except.error "unused" }).sentParts =
      some (buildEditRequestParts imgPng.base64 imgPng.mimeType imgPng.base64
        (buildEditPrompt (activeInstructions sessionA.modPrompts) sessionA.globalPrompt)) := by
    rfl
  have hmain := (composite_part_always_jpeg "AAAA" "image/png" "AAAA" "x").2.2.2
    stBusyA none
    { compositeResult := Except.error "unused", editCallResult := Except.ok respWithImage,
      detectOutcome := false, cleanupOutcome := Except.error "unused" }
    sessionA imgPng _ (by decide) (by decide) hsent
  refine ⟨(composite_part_always_jpeg "AAAA" "image/png" "AAAA" "x").1, ?_, ?_⟩
  · rw [hsent]
    exact (composite_part_always_jpeg "AAAA" "image/png" "AAAA" "x").2.2.1
      stBusyA none _ _ hsent
  · rw [hsent]
    exact hmain.2 (by decide)

/-- C6: in a valid edit invocation (active session with an image and at
least one non-blank instruction), compositing runs only when a
non-empty overlay exists — with an empty overlay the compositor is
never invoked and the source payload is passed through unchanged as the
composite part of the request, and with a non-empty overlay the
compositor is invoked exactly once. -/
theorem compositing_iff_overlay (st : AppState) (canvasDataUrl : Option String)
    (o : EditOracles) (session : Session) (img : GeneratedImage)
    (hga : getActiveSession st = some session) (himg : session.image = some img)
    (hins : hasInstructions session = true) :
    (overlayPresent st.hasDrawing canvasDataUrl = false →
      (handleEdit st canvasDataUrl o).compositorCalls = 0 ∧
      (handleEdit st canvasDataUrl o).sentParts =
        some (buildEditRequestParts img.base64 img.mimeType img.base64
          (buildEditPrompt (activeInstructions session.modPrompts) session.globalPrompt))) ∧
    (overlayPresent st.hasDrawing canvasDataUrl = true →
      (handleEdit st canvasDataUrl o).compositorCalls = 1) := by
  constructor
  · intro hov
    cases hcall : o.editCallResult with
    | error e => simp [handleEdit, hga, himg, hins, hov, hcall]
    | ok resp =>
      cases hex : extractImageFromResponse resp with
      | error ee => simp [handleEdit, hga, himg, hins, hov, hcall, hex]
      | ok firstPassImage => simp [handleEdit, hga, himg, hins, hov, hcall, hex]
  · intro hov
    cases hcomp : o.compositeResult with
    | error e => simp [handleEdit, hga, himg, hins, hov, hcomp]
    | ok comp =>
      cases hcall : o.editCallResult with
      | error e => simp [handleEdit, hga, himg, hins, hov, hcomp, hcall]
      | ok resp =>
        cases hex : extractImageFromResponse resp with
        | error ee => simp [handleEdit, hga, himg, hins, hov, hcomp, hcall, hex]
        | ok firstPassImage => simp [handleEdit, hga, himg, hins, hov, hcomp, hcall, hex]

/-- Witness for C6: with nothing drawn the run issues no compositor
call; with a drawing present it issues exactly one. -/
theorem compositing_iff_overlay_witness :
    (handleEdit stBusyA none oracleEditOk).compositorCalls = 0 ∧
    (handleEdit stDrawA (some "data:image/png;base64,overlay") oracleEditOk).compositorCalls = 1 := by
  constructor
  · exact ((compositing_iff_overlay stBusyA none oracleEditOk sessionA imgPng
      (by decide) (by decide) (by decide)).1 (by decide)).1
  · exact (compositing_iff_overlay stDrawA (some "data:image/png;base64,overlay") oracleEditOk
      sessionA imgPng (by decide) (by decide) (by decide)).2 (by decide)

/-- Helper: one `handleEdit` run either leaves the session list
untouched (rejection and failure branches) or maps the success update —
which writes only `image`, `drawingDataUrl`, `modPrompts` and
`globalPrompt` — over the record whose id is the active id. -/
theorem handleEdit_sessions_cases (st : AppState) (canvasDataUrl : Option String)
    (o : EditOracles) :
    (handleEdit st canvasDataUrl o).state.sessions = st.sessions ∨
    ∃ newImg : GeneratedImage,
      (handleEdit st canvasDataUrl o).state.sessions =
        st.sessions.map (fun s => if s.id == st.activeSessionId then
          { s with image := some newImg, drawingDataUrl := none,
                   modPrompts := [], globalPrompt := "" }
          else s) := by
  cases hga : getActiveSession st with
  | none => left; simp [handleEdit, hga]
  | some session =>
    cases himg : session.image with
    | none => left; simp [handleEdit, hga, himg]
    | some img =>
      by_cases hins : hasInstructions session = true
      · by_cases hov : overlayPresent st.hasDrawing canvasDataUrl = true
        · cases hcomp : o.compositeResult with
          | error e => left; simp [handleEdit, hga, himg, hins, hov, hcomp]
          | ok comp =>
            cases hcall : o.editCallResult with
            | error e => left; simp [handleEdit, hga, himg, hins, hov, hcomp, hcall]
            | ok resp =>
              cases hex : extractImageFromResponse resp with
              | error ee => left; simp [handleEdit, hga, himg, hins, hov, hcomp, hcall, hex]
              | ok firstPassImage =>
                right
                refine ⟨(artifactCleanupPass firstPassImage o.detectOutcome o.cleanupOutcome).result, ?_⟩
                simp [handleEdit, hga, himg, hins, hov, hcomp, hcall, hex, updateActiveSession]
        · rw [Bool.not_eq_true] at hov
          cases hcall : o.editCallResult with
          | error e => left; simp [handleEdit, hga, himg, hins, hov, hcall]
          | ok resp =>
            cases hex : extractImageFromResponse resp with
            | error ee => left; simp [handleEdit, hga, himg, hins, hov, hcall, hex]
            | ok firstPassImage =>
              right
              refine ⟨(artifactCleanupPass firstPassImage o.detectOutcome o.cleanupOutcome).result, ?_⟩
              simp [handleEdit, hga, himg, hins, hov, hcall, hex, updateActiveSession]
      · rw [Bool.not_eq_true] at hins
        left; simp [handleEdit, hga, himg, hins]

/-- C3 counterexample: in `stBusyA` the shared busy flag is set by an
outstanding operation on the active session `A` itself (its own edit
set `isLoading`), `A` has an image and a non-blank instruction — yet a
second edit invoked on `A` is accepted, not rejected:
`handleEditStart` returns `started` (it never consults the busy flag),
setting the same shared global flag again. -/
theorem second_edit_on_busy_session_not_rejected :
    stBusyA.isLoading = true ∧
    getActiveSession stBusyA = some sessionA ∧
    sessionA.image.isSome = true ∧
    hasInstructions sessionA = true ∧
    (handleEditStart stBusyA).2 = EditStartOutcome.started ∧
    (handleEditStart stBusyA).1.isLoading = true := by
  decide

/-- C3 amended: the session-record fields mutated by an edit are scoped
to the invoking (active) session — an edit on `A` is accepted without
consulting the busy flag (so an outstanding `generate` on another
session `B` neither blocks nor rejects it), every session other than
the active one is left entirely unchanged by a full run (in particular
`B`'s record, image included), and no session record's `isLoading`
field is ever written (the busy flag the handlers use is the single
shared global, which is why a second edit on the busy session itself is
accepted rather than rejected). -/
theorem edit_session_scoping (st : AppState) (session : Session) (img : GeneratedImage)
    (hga : getActiveSession st = some session) (himg : session.image = some img)
    (hins : hasInstructions session = true) :
    handleEditStart st =
      ({ st with isLoading := true, errorMessage := none }, EditStartOutcome.started) ∧
    (∀ (i : Nat) (s : Session), st.sessions[i]? = some s → (s.id == st.activeSessionId) = false →
      ∀ (canvasDataUrl : Option String) (o : EditOracles),
        (handleEdit st canvasDataUrl o).state.sessions[i]? = some s) ∧
    (∀ (i : Nat) (s : Session) (canvasDataUrl : Option String) (o : EditOracles),
      st.sessions[i]? = some s →
      ((handleEdit st canvasDataUrl o).state.sessions[i]?).map Session.isLoading =
        some s.isLoading) := by
  refine ⟨?_, ?_, ?_⟩
  · simp [handleEditStart, hga, himg, hins]
  · intro i s hi hid canvasDataUrl o
    rcases handleEdit_sessions_cases st canvasDataUrl o with hsame | ⟨newImg, hmap⟩
    · rw [hsame, hi]
    · have hne : ¬(s.id = st.activeSessionId) := by simpa using hid
      rw [hmap, List.getElem?_map, hi]
      simp [hid, hne]
  · intro i s canvasDataUrl o hi
    rcases handleEdit_sessions_cases st canvasDataUrl o with hsame | ⟨newImg, hmap⟩
    · rw [hsame, hi]; rfl
    · rw [hmap, List.getElem?_map, hi]
      cases hb : (s.id == st.activeSessionId)
      · have hp : ¬(s.id = st.activeSessionId) := by simpa using hb
        simp [hp]
      · have hp : s.id = st.activeSessionId := by simpa using hb
        simp [hp]

/-- Witness for C3 amended: with `B`'s record at index 1 while `A` is
active and the shared flag is set, a second edit on `A` starts, `B`'s
record survives a full run unchanged, and `B`'s record-level
`isLoading` field stays `false`. -/
theorem edit_session_scoping_witness :
    handleEditStart stBusyA =
      ({ stBusyA with isLoading := true, errorMessage := none }, EditStartOutcome.started) ∧
    (handleEdit stBusyA none oracleEditOk).state.sessions[1]? = some sessionB ∧
    ((handleEdit stBusyA none oracleEditOk).state.sessions[1]?).map Session.isLoading =
      some false := by
  have h := edit_session_scoping stBusyA sessionA imgPng (by decide) (by decide) (by decide)
  exact ⟨h.1, h.2.1 1 sessionB (by decide) (by decide) none oracleEditOk,
    h.2.2 1 sessionB none oracleEditOk (by decide)⟩

/-- C4 counterexample: a freshly created session has a blank global
instruction and no region instructions, yet invoking edit on it fails
silently — the image check precedes validation, so no validation error
message is produced at all (the state is returned unchanged), refuting
"for every session ... fails with a ValidationError"; zero service
calls are indeed issued. -/
theorem edit_blank_without_image_silent :
    (jsTrim (createSession "s1").globalPrompt).isEmpty = true ∧
    (createSession "s1").modPrompts = [] ∧
    handleEdit stFresh none oracleUnused =
      { state := stFresh, serviceCalls := 0, compositorCalls := 0, sentParts := none } ∧
    (handleEdit stFresh none oracleUnused).state.errorMessage ≠
      some "Please provide an instruction." := by
  decide

/-- C4 amended: for every session that has an image and whose global
instruction and region instructions are all blank, invoking edit fails
with the validation error (`errorMessage` becomes the fixed validation
message) and issues zero service calls and zero compositor calls — the
remote service is never contacted; a session without an image instead
returns silently, likewise without any call. -/
theorem edit_blank_validation (st : AppState) (canvasDataUrl : Option String)
    (o : EditOracles) (session : Session)
    (hga : getActiveSession st = some session)
    (hblank : (jsTrim session.globalPrompt).isEmpty = true)
    (hmod : ∀ kv ∈ session.modPrompts, (jsTrim kv.2).isEmpty = true) :
    (session.image.isSome = true →
      handleEdit st canvasDataUrl o =
        { state := { st with errorMessage := some "Please provide an instruction." },
          serviceCalls := 0, compositorCalls := 0, sentParts := none }) ∧
    (session.image = none →
      handleEdit st canvasDataUrl o =
        { state := st, serviceCalls := 0, compositorCalls := 0, sentParts := none }) := by
  have hins : hasInstructions session = false := by
    unfold hasInstructions
    rw [Bool.or_eq_false_iff]
    constructor
    · simp [hblank]
    · rw [List.any_eq_false]
      intro kv hkv
      simp [hmod kv hkv]
  constructor
  · intro hsome
    obtain ⟨img, himg⟩ := Option.isSome_iff_exists.mp hsome
    simp [handleEdit, hga, himg, hins]
  · intro himg
    simp [handleEdit, hga, himg]

/-- Witness for C4 amended: a session holding an image with all-blank
instructions is rejected with the validation message and no calls; the
fresh imageless session is rejected silently. -/
theorem edit_blank_validation_witness :
    handleEdit stBlankWithImage none oracleUnused =
      { state := { stBlankWithImage with errorMessage := some "Please provide an instruction." },
        serviceCalls := 0, compositorCalls := 0, sentParts := none } ∧
    handleEdit stFresh none oracleUnused =
      { state := stFresh, serviceCalls := 0, compositorCalls := 0, sentParts := none } := by
  constructor
  · exact (edit_blank_validation stBlankWithImage none oracleUnused
      { createSession "s1" with image := some imgPng }
      (by decide) (by decide) (by decide)).1 (by decide)
  · exact (edit_blank_validation stFresh none oracleUnused (createSession "s1")
      (by decide) (by decide) (by decide)).2 rfl

/-- C5 counterexample: a failing generate on `stGen` is caught and a
message recorded — but in the single global `errorMessage`, not on the
session: every session record's `error` field remains `none`, refuting
"stores a human-readable error message on the session" (the session
list, image included, is indeed left unchanged). -/
theorem failure_message_not_on_session :
    (handleGenerate stGen (Except.error "boom")).errorMessage = some "boom" ∧
    (handleGenerate stGen (Except.error "boom")).sessions = stGen.sessions ∧
    (∀ s ∈ (handleGenerate stGen (Except.error "boom")).sessions, s.error = none) := by
  decide

/-- C5 amended: every failure from the remote client or the compositor
during a generate or edit run is caught by the orchestrator, which
stores the human-readable message in the single global `errorMessage`
(the session record's `error` field is never written), clears the
single global busy flag, and leaves the entire session list — the
session's prior image included — and all other fields unchanged. -/
theorem orchestrator_failure_handling (st : AppState) (msg : String)
    (canvasDataUrl : Option String) (o : EditOracles)
    (session : Session) (img : GeneratedImage) :
    ((jsTrim st.promptText).isEmpty = false → st.isLoading = false →
      handleGenerate st (Except.error msg) =
        { st with errorMessage := some (jsOr msg "Something went wrong."),
                  isLoading := false }) ∧
    (getActiveSession st = some session → session.image = some img →
      hasInstructions session = true →
      overlayPresent st.hasDrawing canvasDataUrl = true →
      o.compositeResult = Except.error msg →
      (handleEdit st canvasDataUrl o).state =
        { st with errorMessage := some (jsOr msg "Something went wrong."),
                  isLoading := false }) ∧
    (getActiveSession st = some session → session.image = some img →
      hasInstructions session = true →
      overlayPresent st.hasDrawing canvasDataUrl = false →
      o.editCallResult = Except.error msg →
      (handleEdit st canvasDataUrl o).state =
        { st with errorMessage := some (jsOr msg "Something went wrong."),
                  isLoading := false }) ∧
    (∀ resp ee, getActiveSession st = some session → session.image = some img →
      hasInstructions session = true →
      overlayPresent st.hasDrawing canvasDataUrl = false →
      o.editCallResult = Except.ok resp → extractImageFromResponse resp = Except.error ee →
      (handleEdit st canvasDataUrl o).state =
        { st with errorMessage := some (jsOr ee.message "Something went wrong."),
                  isLoading := false }) := by
  refine ⟨?_, ?_, ?_, ?_⟩
  · intro hp hl
    simp [handleGenerate, hp, hl]
  · intro hga himg hins hov hcomp
    simp [handleEdit, hga, himg, hins, hov, hcomp]
  · intro hga himg hins hov hcall
    simp [handleEdit, hga, himg, hins, hov, hcall]
  · intro resp ee hga himg hins hov hcall hex
    simp [handleEdit, hga, himg, hins, hov, hcall, hex]

/-- Witness for C5 amended: the four failure scenarios at concrete
states — generate failure, compositor failure, edit-call failure, and
an empty-response extraction failure. -/
theorem orchestrator_failure_handling_witness :
    handleGenerate stGen (Except.error "boom") =
      { stGen with errorMessage := some "boom", isLoading := false } ∧
    (handleEdit stDrawA (some "data:image/png;base64,overlay")
        { compositeResult := Except.error "Failed to load drawing canvas",
          editCallResult := Except.error "unused", detectOutcome := false,
          cleanupOutcome := Except.error "unused" }).state =
      { stDrawA with errorMessage := some "Failed to load drawing canvas",
                     isLoading := false } ∧
    (handleEdit stBusyA none
        { compositeResult := Except.error "unused", editCallResult := Except.error "network down",
          detectOutcome := false, cleanupOutcome := Except.error "unused" }).state =
      { stBusyA with errorMessage := some "network down", isLoading := false } ∧
    (handleEdit stBusyA none
        { compositeResult := Except.error "unused", editCallResult := Except.ok respEmpty,
          detectOutcome := false, cleanupOutcome := Except.error "unused" }).state =
      { stBusyA with errorMessage := some "No candidates returned from API",
                     isLoading := false } := by
  refine ⟨?_, ?_, ?_, ?_⟩
  · exact (orchestrator_failure_handling stGen "boom" none oracleUnused sessionA imgPng).1
      (by decide) (by decide)
  · exact (orchestrator_failure_handling stDrawA "Failed to load drawing canvas"
      (some "data:image/png;base64,overlay")
      { compositeResult := Except.error "Failed to load drawing canvas",
        editCallResult := Except.error "unused", detectOutcome := false,
        cleanupOutcome := Except.error "unused" } sessionA imgPng).2.1
      (by decide) (by decide) (by decide) (by decide) rfl
  · exact (orchestrator_failure_handling stBusyA "network down" none
      { compositeResult := Except.error "unused", editCallResult := Except.error "network down",
        detectOutcome := false, cleanupOutcome := Except.error "unused" } sessionA imgPng).2.2.1
      (by decide) (by decide) (by decide) (by decide) rfl
  · exact (orchestrator_failure_handling stBusyA "unused" none
      { compositeResult := Except.error "unused", editCallResult := Except.ok respEmpty,
        detectOutcome := false, cleanupOutcome := Except.error "unused" } sessionA imgPng).2.2.2
      respEmpty ExtractError.emptyResponse
      (by decide) (by decide) (by decide) (by decide) rfl rfl

/-- Helper: filtering one id out of a list of at least two sessions
with pairwise-distinct ids cannot empty it. -/
theorem filter_ne_nil_of_nodup (l : List Session) (targetId : String)
    (hlen : 2 ≤ l.length) (hnodup : (l.map Session.id).Nodup) :
    l.filter (fun s => s.id != targetId) ≠ [] := by
  intro hnil
  rw [List.filter_eq_nil_iff] at hnil
  cases l with
  | nil => simp at hlen
  | cons a rest =>
    cases rest with
    | nil => simp at hlen
    | cons b t =>
      have ha : a.id = targetId := by
        have := hnil a (by simp)
        simpa using this
      have hb : b.id = targetId := by
        have := hnil b (by simp)
        simpa using this
      rw [List.map_cons, List.map_cons, List.nodup_cons] at hnodup
      exact hnodup.1 (by simp [ha, hb])

/-- C9: at least one session always exists — a fresh session is empty
(no image, blank prompts, no error); deleting with only one session
left yields exactly that one fresh session; deleting from a non-empty
list with distinct session ids (guaranteed by UUID creation) leaves a
non-empty list; and creating or resetting likewise preserves
non-emptiness. -/
theorem session_store_nonempty (st : AppState) (targetId freshId : String) :
    ((createSession freshId).image = none ∧ (createSession freshId).basePrompt = "" ∧
      (createSession freshId).globalPrompt = "" ∧ (createSession freshId).modPrompts = [] ∧
      (createSession freshId).error = none) ∧
    (st.sessions.length = 1 →
      (handleDeleteSession st targetId freshId).sessions = [createSession freshId]) ∧
    (st.sessions ≠ [] → (st.sessions.map Session.id).Nodup →
      (handleDeleteSession st targetId freshId).sessions ≠ []) ∧
    (handleCreateNewSession st freshId).sessions ≠ [] ∧
    (st.sessions ≠ [] → (handleResetCurrent st freshId).sessions ≠ []) := by
  refine ⟨⟨rfl, rfl, rfl, rfl, rfl⟩, ?_, ?_, ?_, ?_⟩
  · intro hlen
    simp [handleDeleteSession, hlen]
  · intro hne hnodup
    by_cases hlen : st.sessions.length ≤ 1
    · simp [handleDeleteSession, hlen]
    · have h2 : 2 ≤ st.sessions.length := by omega
      simp only [handleDeleteSession, if_neg hlen]
      exact filter_ne_nil_of_nodup st.sessions targetId h2 hnodup
  · simp [handleCreateNewSession]
  · intro hne
    simp only [handleResetCurrent]
    intro hmap
    exact hne (List.map_eq_nil_iff.mp hmap)

/-- Witness for C9: deleting the only session of the fresh state
recreates one fresh empty session; deleting `A` from the two-session
state leaves `B`'s record. -/
theorem session_store_nonempty_witness :
    (handleDeleteSession stFresh "s1" "s2").sessions = [createSession "s2"] ∧
    (handleDeleteSession stBusyA "A" "s3").sessions ≠ [] ∧
    (handleCreateNewSession stFresh "s2").sessions ≠ [] ∧
    (handleResetCurrent stFresh "s2").sessions ≠ [] := by
  refine ⟨?_, ?_, ?_, ?_⟩
  · exact (session_store_nonempty stFresh "s1" "s2").2.1 (by decide)
  · exact (session_store_nonempty stBusyA "A" "s3").2.2.1 (by decide) (by decide)
  · exact (session_store_nonempty stFresh "unused" "s2").2.2.2.1
  · exact (session_store_nonempty stFresh "unused" "s2").2.2.2.2 (by decide)

end DrawToEdit
